import Mathlib

set_option maxRecDepth 20000

/-!
Verification of `examples/example_global_analysis.py` from the squid-nn
repository.  The script is a linear two-phase pipeline selected by a manual
boolean toggle (`if 1:`): STEP 1 builds a background DNA sequence carrying a
conserved pattern, generates an in-silico MAVE dataset with the squid library
and saves the two arrays; STEP 2 loads those arrays, trains a MAVE-NN
surrogate model and writes a logo table and a figure.  Below, the script's
value-level computations (sequence construction, windows, file paths) are
embedded directly from the source; Python name resolution and exception
propagation are embedded as small operational models; library functions of
the squid repository that are not part of the provided source are modelled
from the spec where a claim needs them, and are marked as such.
-/

namespace SquidGlobal

/-! ### Module-level constants of the script (lines 37-46) -/

/-- Line 39: `seq_length = 1000`, the full sequence length of bpnet inputs. -/
def seq_length0 : Nat := 1000

/-- Line 38: `alphabet = ['A','C','G','T']`. -/
def alphabet : List Char := ['A', 'C', 'G', 'T']

/-- Line 42: `pattern = 'AGCCATCAA'`, the conserved sequence of interest. -/
def pattern : List Char := String.toList "AGCCATCAA"

/-- Line 44: `start_pos = int(seq_length//2)`. -/
def start_pos : Nat := seq_length0 / 2

/-- Python's slice `s[:-k]` on a string/list: empty for `k = 0` (since
`-0 == 0` the slice is `s[:0]`), otherwise the first `len(s) - k` elements
(empty when `k >= len(s)`). -/
def pySliceUpToNeg (s : List Char) (k : Nat) : List Char :=
  if k = 0 then [] else s.take (s.length - k)

/-- Line 45 generalized over the two script parameters:
`seq = 'N'*int(L//2) + pat + ('N'*int(L//2))[:-len(pat)]`. -/
def buildSeq (L : Nat) (pat : List Char) : List Char :=
  List.replicate (L / 2) 'N' ++ pat ++ pySliceUpToNeg (List.replicate (L / 2) 'N') pat.length

/-- Line 45: the background sequence with the pattern inserted. -/
def seq : List Char := buildSeq seq_length0 pattern

/-- Line 46: `mut_window = [start_pos, start_pos+len(pattern)]`, the interval
in the sequence to mutagenize locally (initial module-level value). -/
def mut_window_init : List Nat := [start_pos, start_pos + pattern.length]

/-! ### STEP 1 values (lines 50-81) -/

/-- Modelled from the spec: `utils.seq2oh` of the squid library (imported at
line 53, not part of the provided source) produces "a one-hot encoded DNA
sequence array", one row per input character, each row indicating which
alphabet symbol the character is (a character outside the alphabet, such as
the background symbol, gives an all-zero row). -/
def seq2oh (s : List Char) (alph : List Char) : List (List Nat) :=
  s.map (fun c => alph.map (fun a => if a = c then 1 else 0))

/-- Line 58: `x = utils.seq2oh(seq, alphabet)`. -/
def x : List (List Nat) := seq2oh seq alphabet

/-- Line 70: `seq_length = len(x)` — STEP 1 reassigns the module variable. -/
def seq_length_step1 : Nat := x.length

/-- Line 71: `mut_window = [0, seq_length]` — STEP 1 reassigns the window to
the full sequence before constructing the MAVE. -/
def mut_window_step1 : List Nat := [0, seq_length_step1]

/-- The keyword arguments handed to `mave.InSilicoMAVE` at lines 73-74. -/
structure InSilicoMAVEArgs where
  seq_length : Nat
  mut_window : List Nat
  context_agnostic : Bool
  deriving DecidableEq, Repr

/-- Lines 73-74: the constructor call
`mave.InSilicoMAVE(mut_generator, mut_predictor=kipoi_predictor,
seq_length=seq_length, mut_window=mut_window, context_agnostic=True)`,
evaluated after the reassignments of lines 70-71. -/
def maveArgs : InSilicoMAVEArgs :=
  { seq_length := seq_length_step1
    mut_window := mut_window_step1
    context_agnostic := true }

/-! ### File-system paths and events

Paths are embedded as lists of components; `os.path.join(a, b)` with a
relative literal second argument appends one component. -/

/-- A file-system path, as a list of components. -/
abbrev FPath : Type := List String

/-- Lines 32-33: `save_dir = os.path.join(py_dir, 'outputs_global_analysis')`,
with `py_dir` (the script's own directory) kept abstract. -/
def saveDir (py_dir : FPath) : FPath := py_dir ++ ["outputs_global_analysis"]

/-- Line 80: `os.path.join(save_dir, 'x_mut.npy')`. -/
def xMutPath (py_dir : FPath) : FPath := saveDir py_dir ++ ["x_mut.npy"]

/-- Line 81: `os.path.join(save_dir, 'y_mut.npy')`. -/
def yMutPath (py_dir : FPath) : FPath := saveDir py_dir ++ ["y_mut.npy"]

/-- Line 117: `os.path.join(save_dir, 'logo.csv')`. -/
def logoCsvPath (py_dir : FPath) : FPath := saveDir py_dir ++ ["logo.csv"]

/-- Modelled from the spec: `squid.impress.plot_additive_logo(...,
save_dir=save_dir)` at line 119 (squid library code, not part of the provided
source) saves the figure as a file under `save_dir`; the file's base name is
kept abstract. -/
def figurePath (py_dir : FPath) (figName : String) : FPath :=
  saveDir py_dir ++ [figName]

/-- A file-system operation performed by the script. -/
inductive FsEvent where
  | mkdir (p : FPath)
  | write (p : FPath)
  | read (p : FPath)
  deriving DecidableEq

/-- Lines 80-81: the two `np.save` calls of STEP 1, in order. -/
def step1FileOps (py_dir : FPath) : List FsEvent :=
  [FsEvent.write (xMutPath py_dir), FsEvent.write (yMutPath py_dir)]

/-- The two paths STEP 1 persists (lines 80-81). -/
def step1SavePaths (py_dir : FPath) : List FPath :=
  [saveDir py_dir ++ ["x_mut.npy"], saveDir py_dir ++ ["y_mut.npy"]]

/-- The two paths STEP 2 loads its training dataset from (lines 92-93). -/
def step2LoadPaths (py_dir : FPath) : List FPath :=
  [saveDir py_dir ++ ["x_mut.npy"], saveDir py_dir ++ ["y_mut.npy"]]

/-- Lines 92-93, 117, 119: the file operations of STEP 2, in order: two
`np.load` reads, the `logo_df.to_csv` write, and the saved figure. -/
def step2FileOps (py_dir : FPath) (figName : String) : List FsEvent :=
  [FsEvent.read (xMutPath py_dir), FsEvent.read (yMutPath py_dir),
   FsEvent.write (logoCsvPath py_dir), FsEvent.write (figurePath py_dir figName)]

/-- The script's file operations: lines 33-34 create the output directory
when absent, then exactly one branch of the toggle runs (lines 50, 84). -/
def scriptFileOps (py_dir : FPath) (figName : String)
    (dirExists : Bool) (toggle : Bool) : List FsEvent :=
  (if dirExists then [] else [FsEvent.mkdir (saveDir py_dir)]) ++
    (if toggle then step1FileOps py_dir else step2FileOps py_dir figName)

/-! ### The toggle and the two phases (lines 50, 84) -/

/-- The two phases of the pipeline. -/
inductive Phase where
  | step1
  | step2
  deriving DecidableEq

/-- Python truthiness of an integer literal used as an `if` condition. -/
def pyTruthy (n : Int) : Bool := n != 0

/-- Line 50: the literal `1` of the manual toggle `if 1:` as written. -/
def toggleLiteral : Int := 1

/-- The phases executed in one run of the script: the `if`/`else` at lines
50 and 84 runs STEP 1 when the toggle is truthy, STEP 2 otherwise. -/
def phasesRun (toggle : Bool) : List Phase :=
  if toggle then [Phase.step1] else [Phase.step2]

/-! ### Directory setup (lines 33-34) -/

/-- `os.makedirs(save_dir)`: creates the directory (state becomes "exists"),
and raises `FileExistsError` when the directory already exists, as the call
is made without `exist_ok=True`.  The state is whether `save_dir` exists. -/
def osMakedirs (py_dir : FPath) (dirExists : Bool) :
    Except String (Bool × List FsEvent) :=
  if dirExists then Except.error "FileExistsError"
  else Except.ok (true, [FsEvent.mkdir (saveDir py_dir)])

/-- Lines 33-34: `if not os.path.exists(save_dir): os.makedirs(save_dir)`.
Returns the resulting directory state and the file-system events performed. -/
def dirSetup (py_dir : FPath) (dirExists : Bool) :
    Except String (Bool × List FsEvent) :=
  if dirExists then Except.ok (dirExists, []) else osMakedirs py_dir dirExists

/-! ### Python name resolution (for the STEP 2 `NameError`)

STEP 2's branch never imports numpy, so the reference `np` at line 92 is
unbound.  The model below tracks the set of bound module-level names through
the statements of the script, in source order; evaluating a statement whose
referenced names are not all bound raises a `NameError` carrying the first
unbound name, and nothing after it executes. -/

/-- A Python statement, abstracted to the names it binds and references. -/
inductive NStmt where
  | bindNames (targets : List String)
  | assign (targets : List String) (uses : List String)
  | exprStmt (uses : List String)
  deriving DecidableEq

/-- The first name of `uses` not bound in `env`, if any. -/
def firstUnbound (env : List String) (uses : List String) : Option String :=
  uses.find? (fun u => !env.contains u)

/-- Run a statement list over an environment of bound names; an unbound
reference raises `NameError` with that name, aborting the rest. -/
def runNames (env : List String) : List NStmt → Except String (List String)
  | [] => Except.ok env
  | NStmt.bindNames ts :: rest => runNames (env ++ ts) rest
  | NStmt.assign ts us :: rest =>
    match firstUnbound env us with
    | some u => Except.error u
    | none => runNames (env ++ ts) rest
  | NStmt.exprStmt us :: rest =>
    match firstUnbound env us with
    | some u => Except.error u
    | none => runNames env rest

/-- Names Python binds before the module body runs, plus the builtins the
script references (`print`, `len`, `int`). -/
def initialEnv : List String := ["__file__", "print", "len", "int"]

/-- Lines 17-46: the module-level statements executed before the toggle,
each abstracted to the names it binds and the module-level names and
builtins it references. -/
def preludeNStmts : List NStmt :=
  [NStmt.bindNames ["os", "sys"],
   NStmt.exprStmt ["sys"],
   NStmt.assign ["gpu"] [],
   NStmt.assign ["save"] [],
   NStmt.assign ["py_dir"] ["os", "__file__"],
   NStmt.assign ["parent_dir"] ["os", "py_dir"],
   NStmt.assign ["save_dir"] ["os", "py_dir"],
   NStmt.exprStmt ["os", "save_dir"],
   NStmt.assign ["task_idx"] [],
   NStmt.assign ["alphabet"] [],
   NStmt.assign ["seq_length"] [],
   NStmt.assign ["pattern"] [],
   NStmt.assign ["start_pos"] ["int", "seq_length"],
   NStmt.assign ["seq"] ["int", "seq_length", "pattern", "len"],
   NStmt.assign ["mut_window"] ["start_pos", "len", "pattern"]]

/-- Lines 84-119: the statements of STEP 2 (the `else` branch), in source
order.  The branch's three imports bind `mavenn`, `squid` and `plt`; the
name `np` is bound by no statement of this branch. -/
def step2NStmts : List NStmt :=
  [NStmt.bindNames ["mavenn"],
   NStmt.bindNames ["squid"],
   NStmt.bindNames ["plt"],
   NStmt.assign ["gpmap"] [],
   NStmt.assign ["x_mut"] ["np", "os", "save_dir"],
   NStmt.assign ["y_mut"] ["np", "os", "save_dir"],
   NStmt.assign ["surrogate_model"] ["squid", "x_mut", "y_mut", "gpmap", "alphabet", "gpu"],
   NStmt.assign ["surrogate", "mave_df"] ["surrogate_model", "x_mut", "y_mut"],
   NStmt.assign ["params"] ["surrogate_model"],
   NStmt.assign ["logo"] ["surrogate_model", "mut_window", "seq_length"],
   NStmt.assign ["logo_df"] ["squid", "logo", "alphabet"],
   NStmt.exprStmt ["print", "logo_df"],
   NStmt.exprStmt ["logo_df", "os", "save_dir"],
   NStmt.assign ["fig"] ["squid", "logo", "mut_window", "alphabet", "save_dir"]]

/-! ### Exception propagation (no handlers anywhere in the script) -/

/-- The external calls and file operations the script performs, in order;
each may raise.  STEP 1 ops are lines 51-81, STEP 2 ops lines 85-119. -/
inductive PipeOp where
  | importKipoiNumpy
  | seq2ohCall
  | getModelCall
  | predictorInit
  | mutagenizerInit
  | maveInit
  | maveGenerate
  | saveXMut
  | saveYMut
  | importMavennSquidPlt
  | loadXMut
  | loadYMut
  | surrogateInit
  | surrogateTrain
  | getParamsCall
  | getLogoCall
  | arr2pdCall
  | toCsvCall
  | plotLogoCall
  deriving DecidableEq

/-- A statement in a Python-like language that has exception handlers, so
that their absence from the script is expressible. -/
inductive HStmt where
  | call (o : PipeOp)
  | tryExcept (body : HStmt) (handler : HStmt)
  deriving DecidableEq

/-- Whether a statement contains a `try`/`except` handler. -/
def hasHandler : HStmt → Bool
  | HStmt.call _ => false
  | HStmt.tryExcept _ _ => true

/-- Execute one statement: a `try`/`except` recovers from a failing body by
running the handler; a bare call just performs the operation. -/
def execStmt (oracle : PipeOp → Except String Unit) : HStmt → Except String Unit
  | HStmt.call o => oracle o
  | HStmt.tryExcept b h =>
    match execStmt oracle b with
    | Except.ok _ => Except.ok ()
    | Except.error _ => execStmt oracle h

/-- Execute a statement list in order, stopping at the first failure. -/
def execStmts (oracle : PipeOp → Except String Unit) : List HStmt → Except String Unit
  | [] => Except.ok ()
  | s :: rest =>
    match execStmt oracle s with
    | Except.ok _ => execStmts oracle rest
    | Except.error e => Except.error e

/-- Unhandled sequential execution of raw operations: the first error, if
any, is the result ("default propagation"). -/
def firstErrorRun (oracle : PipeOp → Except String Unit) : List PipeOp → Except String Unit
  | [] => Except.ok ()
  | o :: rest =>
    match oracle o with
    | Except.ok _ => firstErrorRun oracle rest
    | Except.error e => Except.error e

/-- The operations of STEP 1, in source order (lines 51-81). -/
def step1Ops : List PipeOp :=
  [PipeOp.importKipoiNumpy, PipeOp.seq2ohCall, PipeOp.getModelCall,
   PipeOp.predictorInit, PipeOp.mutagenizerInit, PipeOp.maveInit,
   PipeOp.maveGenerate, PipeOp.saveXMut, PipeOp.saveYMut]

/-- The operations of STEP 2, in source order (lines 85-119). -/
def step2Ops : List PipeOp :=
  [PipeOp.importMavennSquidPlt, PipeOp.loadXMut, PipeOp.loadYMut,
   PipeOp.surrogateInit, PipeOp.surrogateTrain, PipeOp.getParamsCall,
   PipeOp.getLogoCall, PipeOp.arr2pdCall, PipeOp.toCsvCall,
   PipeOp.plotLogoCall]

/-- The operations of the branch the toggle selects. -/
def branchOps (toggle : Bool) : List PipeOp :=
  if toggle then step1Ops else step2Ops

/-- The script's statements: every operation appears as a bare call — the
source contains no `try`/`except` anywhere. -/
def scriptStmts (toggle : Bool) : List HStmt :=
  (branchOps toggle).map HStmt.call

/-! ### The variables read at STEP 2's `get_logo` call (line 113) -/

/-- The two module-level variables STEP 2's `get_logo` call reads. -/
structure Vars where
  seq_length : Nat
  mut_window : List Nat
  deriving DecidableEq

/-- Lines 39 and 46: the module-level values before the toggle. -/
def initVars : Vars :=
  { seq_length := seq_length0, mut_window := mut_window_init }

/-- Lines 70-71: STEP 1 reassigns `seq_length = len(x)` then
`mut_window = [0, seq_length]`. -/
def step1Assigns (_ : Vars) : Vars :=
  { seq_length := x.length, mut_window := [0, x.length] }

/-- STEP 2 (lines 84-119) contains no assignment to `seq_length` or
`mut_window`, so it leaves both unchanged. -/
def step2Assigns (v : Vars) : Vars := v

/-- The variable state inside the branch the toggle selects. -/
def branchVars (toggle : Bool) : Vars :=
  if toggle then step1Assigns initVars else step2Assigns initVars

/-- Line 113: `surrogate_model.get_logo(mut_window=mut_window,
full_length=seq_length)` — the two keyword arguments read at the call site. -/
def getLogoArgs (v : Vars) : List Nat × Nat := (v.mut_window, v.seq_length)

/-! ### Whole-script behaviour as a function of its inputs (for CLI
independence): the script never reads `sys.argv`, so its embedding does not
depend on the `argv` parameter. -/

/-- One run of the script, as the observable behaviour determined by its
inputs: the command line, the script directory, the figure file name, the
initial directory state and the toggle.  The result is the phases executed
and the file operations performed. -/
def scriptBehavior (_argv : List String) (py_dir : FPath) (figName : String)
    (dirExists : Bool) (toggle : Bool) : List Phase × List FsEvent :=
  (phasesRun toggle, scriptFileOps py_dir figName dirExists toggle)

/-! ### Helper lemmas -/

/-- When `1 ≤ len(pat) ≤ L/2`, the Python construction of line 45 is the
pattern flanked by `'N'` pads of lengths `L/2` and `L/2 - len(pat)`. -/
lemma buildSeq_canonical (L : Nat) (pat : List Char)
    (hp : 1 ≤ pat.length) (hle : pat.length ≤ L / 2) :
    buildSeq L pat =
      List.replicate (L / 2) 'N' ++ pat ++
        List.replicate (L / 2 - pat.length) 'N' := by
  unfold buildSeq pySliceUpToNeg
  rw [if_neg (by omega), List.length_replicate, List.take_replicate,
    Nat.min_eq_left (by omega)]

/-- A list of bare calls executes exactly as unhandled sequential
execution of the underlying operations. -/
lemma execStmts_map_call (oracle : PipeOp → Except String Unit)
    (ops : List PipeOp) :
    execStmts oracle (ops.map HStmt.call) = firstErrorRun oracle ops := by
  induction ops with
  | nil => rfl
  | cons o rest ih =>
    cases h : oracle o <;> simp [execStmts, execStmt, firstErrorRun, h, ih]

/-! ### Claims -/

/-- Claim C1, counterexample: the mutagenesis window handed to the MAVE
generator (the `mut_window` keyword of `mave.InSilicoMAVE`, lines 73-74) is
not the motif-local interval `[seq_length//2, seq_length//2 + len(pattern)]`,
because line 71 reassigns `mut_window` to the full-sequence interval first. -/
theorem C1_counterexample :
    maveArgs.mut_window ≠ [seq_length0 / 2, seq_length0 / 2 + pattern.length] := by
  decide

/-- Claim C1, amended: the mutagenesis window handed to the MAVE generator is
`[0, seq_length]` — the full sequence, of length 1000 — fixed by the
reassignments at lines 70-71; the motif-local interval
`[seq_length//2, seq_length//2 + len(pattern)]` where the pattern was
inserted is only the initial value of `mut_window` (line 46), which the
constructor call never sees. -/
theorem C1_window_is_full_sequence :
    maveArgs.mut_window = [0, seq_length_step1] ∧
    seq_length_step1 = 1000 ∧
    mut_window_init = [seq_length0 / 2, seq_length0 / 2 + pattern.length] ∧
    maveArgs.mut_window ≠ mut_window_init := by
  refine ⟨rfl, by decide, rfl, by decide⟩

/-- Claim C2: running the module with the toggle selecting STEP 2 raises a
`NameError` for the unbound name `np` — numpy is imported only inside
STEP 1's branch — and the error arises exactly at the first `np.load`
statement (line 92): every statement before it succeeds (second conjunct),
and the run aborts there (first conjunct), so `x_mut.npy` is never loaded
and the surrogate-training statement (line 101) never executes. -/
theorem C2_step2_raises_NameError :
    runNames initialEnv (preludeNStmts ++ step2NStmts) = Except.error "np" ∧
    (runNames initialEnv (preludeNStmts ++ step2NStmts.take 4)).toOption.isSome = true :=
  ⟨rfl, rfl⟩

/-- Claim C3: STEP 1 persists the generated variants and outputs at
`save_dir/x_mut.npy` and `save_dir/y_mut.npy` (lines 80-81, in that order),
and STEP 2 loads its training dataset from exactly those same two paths
(lines 92-93): the load paths equal the save paths, the STEP 1 file
operations are writes of the save paths, and the first two STEP 2 file
operations are reads of the load paths. -/
theorem C3_persisted_paths_match :
    ∀ (py_dir : FPath) (figName : String),
      step2LoadPaths py_dir = step1SavePaths py_dir ∧
      step1FileOps py_dir = (step1SavePaths py_dir).map FsEvent.write ∧
      (step2FileOps py_dir figName).take 2 =
        (step2LoadPaths py_dir).map FsEvent.read :=
  fun _ _ => ⟨rfl, rfl, rfl⟩

/-- Claim C4: in any single execution exactly one phase runs — the branch at
lines 50/84 executes STEP 1 when the toggle is truthy and STEP 2 otherwise,
never both — and with the toggle as written (`if 1:`) STEP 1 is the phase
that runs. -/
theorem C4_exactly_one_phase :
    (∀ t : Bool, (phasesRun t).length = 1 ∧
      (phasesRun t = [Phase.step1] ∨ phasesRun t = [Phase.step2])) ∧
    phasesRun (pyTruthy toggleLiteral) = [Phase.step1] := by
  refine ⟨fun t => ?_, rfl⟩
  cases t <;> simp [phasesRun]

/-- Claim C5: when the output directory `outputs_global_analysis` (under the
script's own directory) is absent, its creation is the first file-system
operation, before either phase's operations; when it is present no creation
happens; and every write the script's code performs — `x_mut.npy`,
`y_mut.npy`, `logo.csv` and the saved figure — targets a path under that
directory. -/
theorem C5_artifacts_under_save_dir :
    (∀ (py_dir : FPath) (figName : String) (t : Bool),
      scriptFileOps py_dir figName false t =
        FsEvent.mkdir (saveDir py_dir) ::
          (if t then step1FileOps py_dir else step2FileOps py_dir figName) ∧
      scriptFileOps py_dir figName true t =
        (if t then step1FileOps py_dir else step2FileOps py_dir figName)) ∧
    (∀ (py_dir : FPath) (figName : String) (d t : Bool) (p : FPath),
      FsEvent.write p ∈ scriptFileOps py_dir figName d t →
        saveDir py_dir <+: p) := by
  refine ⟨fun _ _ _ => ⟨rfl, rfl⟩, fun py_dir figName d t p hmem => ?_⟩
  cases d <;> cases t <;>
    simp [scriptFileOps, step1FileOps, step2FileOps, xMutPath, yMutPath,
      logoCsvPath, figurePath] at hmem <;>
    rcases hmem with h | h <;> subst h <;> exact List.prefix_append _ _

/-- Witness for C5 at a concrete input: the `x_mut.npy` write of a STEP 1
run with the directory absent is under the output directory. -/
theorem C5_artifacts_under_save_dir_witness :
    FsEvent.write (saveDir ["home"] ++ ["x_mut.npy"]) ∈
      scriptFileOps ["home"] "logo.pdf" false true ∧
    saveDir ["home"] <+: saveDir ["home"] ++ ["x_mut.npy"] :=
  ⟨by decide,
    C5_artifacts_under_save_dir.2 ["home"] "logo.pdf" false true
      (saveDir ["home"] ++ ["x_mut.npy"]) (by decide)⟩

/-- Claim C6, counterexample: the precondition
`len(pattern) ≤ seq_length - seq_length//2` does not make the constructed
sequence have length `seq_length`: at `seq_length = 5` with a one-character
pattern the construction yields length 4, and at `seq_length = 4` with an
empty pattern (Python's `[:-0]` empties the right pad) it yields length 2. -/
theorem C6_counterexample :
    ((['A'] : List Char).length ≤ 5 - 5 / 2 ∧ (buildSeq 5 ['A']).length ≠ 5) ∧
    (([] : List Char).length ≤ 4 - 4 / 2 ∧
      (buildSeq 4 ([] : List Char)).length ≠ 4) := by
  decide

/-- Claim C6, amended: given `seq_length` even and
`1 ≤ len(pattern) ≤ seq_length - seq_length//2`, the constructed sequence
has length exactly `seq_length`, carries the pattern at positions
`seq_length//2` through `seq_length//2 + len(pattern) - 1`, and has the
background symbol `'N'` at every other position. -/
theorem C6_padded_sequence (L : Nat) (pat : List Char) (he : L % 2 = 0)
    (hp : 1 ≤ pat.length) (hle : pat.length ≤ L - L / 2) :
    (buildSeq L pat).length = L ∧
    (∀ i, i < pat.length → (buildSeq L pat)[L / 2 + i]? = pat[i]?) ∧
    (∀ j, j < L → (j < L / 2 ∨ L / 2 + pat.length ≤ j) →
      (buildSeq L pat)[j]? = some 'N') := by
  have hle2 : pat.length ≤ L / 2 := by omega
  have hcanon := buildSeq_canonical L pat hp hle2
  refine ⟨?_, fun i hi => ?_, fun j hj hcase => ?_⟩
  · rw [hcanon]
    simp only [List.length_append, List.length_replicate]
    omega
  · rw [hcanon,
      List.getElem?_append_left
        (by simp only [List.length_append, List.length_replicate]; omega),
      List.getElem?_append_right (by simp only [List.length_replicate]; omega)]
    simp only [List.length_replicate]
    rw [Nat.add_sub_cancel_left]
  · rw [hcanon]
    rcases hcase with hlt | hge
    · rw [List.getElem?_append_left
          (by simp only [List.length_append, List.length_replicate]; omega),
        List.getElem?_append_left (by simp only [List.length_replicate]; omega),
        List.getElem?_replicate, if_pos hlt]
    · rw [List.getElem?_append_right
          (by simp only [List.length_append, List.length_replicate]; omega)]
      simp only [List.length_append, List.length_replicate]
      rw [List.getElem?_replicate, if_pos (by omega)]

/-- Witness for C6's amended statement at a concrete input: an even length 4
and a two-character pattern. -/
theorem C6_padded_sequence_witness :
    (4 % 2 = 0 ∧ 1 ≤ (['A', 'C'] : List Char).length ∧
      (['A', 'C'] : List Char).length ≤ 4 - 4 / 2) ∧
    ((buildSeq 4 ['A', 'C']).length = 4 ∧
      (∀ i, i < (['A', 'C'] : List Char).length →
        (buildSeq 4 ['A', 'C'])[4 / 2 + i]? = (['A', 'C'] : List Char)[i]?) ∧
      (∀ j, j < 4 → (j < 4 / 2 ∨ 4 / 2 + (['A', 'C'] : List Char).length ≤ j) →
        (buildSeq 4 ['A', 'C'])[j]? = some 'N')) :=
  ⟨⟨by decide, by decide, by decide⟩,
    C6_padded_sequence 4 ['A', 'C'] (by decide) (by decide) (by decide)⟩

/-- Claim C7: neither branch of the script contains any `try`/`except`
handler, and each branch's execution equals unhandled sequential execution
of its operations: whatever error any library call or file operation
raises, it is the result of the whole run (default propagation, no
validation, retry, or recovery). -/
theorem C7_no_handlers_errors_propagate :
    (∀ t : Bool, ((scriptStmts t).all fun s => !hasHandler s) = true) ∧
    (∀ (t : Bool) (oracle : PipeOp → Except String Unit),
      execStmts oracle (scriptStmts t) = firstErrorRun oracle (branchOps t)) := by
  refine ⟨fun t => ?_, fun t oracle => execStmts_map_call oracle (branchOps t)⟩
  cases t <;> rfl

/-- Claim C8: in a STEP 2 run the `get_logo` call site (line 113) reads
`mut_window = [seq_length//2, seq_length//2 + len(pattern)] = [500, 509]`
and `full_length = seq_length = 1000`, because the reassignments of
lines 70-71 occur only inside STEP 1's branch; this logo window differs
from the full-sequence window `[0, 1000]` under which STEP 1 generated the
dataset. -/
theorem C8_step2_logo_window :
    getLogoArgs (branchVars false) =
      ([seq_length0 / 2, seq_length0 / 2 + pattern.length], seq_length0) ∧
    getLogoArgs (branchVars false) = ([500, 509], 1000) ∧
    (branchVars true).mut_window = [0, 1000] ∧
    (branchVars false).mut_window ≠ (branchVars true).mut_window := by
  refine ⟨rfl, by decide, by decide, by decide⟩

/-- Claim C9: the output-directory setup of lines 33-34 is idempotent and
never fails: for any initial state it succeeds leaving the directory in
place, creating it exactly when it was absent; with the directory already
present it performs no creation at all — which matters because an unguarded
`os.makedirs` on an existing directory would raise `FileExistsError`. -/
theorem C9_dir_setup_idempotent :
    ∀ (py_dir : FPath) (d : Bool),
      dirSetup py_dir d =
        Except.ok (true,
          if d then ([] : List FsEvent) else [FsEvent.mkdir (saveDir py_dir)]) ∧
      dirSetup py_dir true = Except.ok (true, ([] : List FsEvent)) ∧
      osMakedirs py_dir true = Except.error "FileExistsError" := by
  intro py_dir d
  refine ⟨?_, rfl, rfl⟩
  cases d <;> rfl

/-- Claim C10: the script's behaviour is independent of the command line:
two invocations differing only in the CLI arguments execute the same phases
and perform the same file operations — the script never reads `sys.argv`,
so its behaviour is the same function of the remaining inputs. -/
theorem C10_cli_independent :
    ∀ (argv₁ argv₂ : List String) (py_dir : FPath) (figName : String)
      (d t : Bool),
      scriptBehavior argv₁ py_dir figName d t =
        scriptBehavior argv₂ py_dir figName d t :=
  fun _ _ _ _ _ _ => rfl

end SquidGlobal
